import Mathlib

/-!
Shallow embedding of the arbor-editor data-sync layer.

Sources embedded here:
- `src/db/schema.ts` — row shapes for projects, todos, folders, files, and the
  two unique indexes `folders_project_parent_name_unique` and
  `files_folder_name_unique` (Postgres semantics: a unique index never treats
  two NULLs as equal).
- the API route file (`src/unnamed/part_000`, third document) — the entity
  configurations passed to `createCRUDRoutes`: per-entity `syncFilter` strings
  and `access.create` / `access.update` / `access.delete` predicates.
- `src/lib/collections.ts` — the client mutation handlers and the
  `serializeBytea` / `deserializeBytea` helpers (whose `btoa` / `atob`
  runtime builtins are embedded as an executable base64 codec).

The generic `createCRUDRoutes` factory and the optimistic collection store are
not part of the given sources (only their call sites are); where a claim needs
them they are modelled from the specification and marked as such in their doc
comments.  Timestamp columns are carried as opaque `Nat` values.
-/

namespace Arbor

/-- Row of the `projects` table (`src/db/schema.ts`, `projectsTable`). -/
structure Project where
  id : Nat
  name : String
  description : Option String
  shared_user_ids : List String
  created_at : Nat
  owner_id : String
deriving DecidableEq

/-- Row of the `todos` table (`src/db/schema.ts`, `todosTable`). -/
structure Todo where
  id : Nat
  text : String
  completed : Bool
  created_at : Nat
  user_id : String
  project_id : Nat
  user_ids : List String
deriving DecidableEq

/-- Row of the `folders` table (`src/db/schema.ts`, `foldersTable`);
`parent_folder_id` is null for root folders. -/
structure Folder where
  id : Nat
  project_id : Nat
  parent_folder_id : Option Nat
  name : String
  created_at : Nat
  updated_at : Nat
deriving DecidableEq

/-- Row of the `files` table (`src/db/schema.ts`, `filesTable`); the
`loro_snapshot` bytea column is a list of bytes. -/
structure FileRow where
  id : Nat
  project_id : Nat
  folder_id : Option Nat
  name : String
  loro_snapshot : Option (List Nat)
  created_at : Nat
  updated_at : Nat
deriving DecidableEq

/-! ## Sync filter fragments (route file, `syncFilter` of each entity)

Each `syncFilter` in the route file is a JavaScript template string; the
session user id is spliced into the text for projects and todos, while the
folders and files routes emit the constant text `true`.  We embed both the
emitted text and its evaluation, as SQL, against a storage row. -/

/-- Single quote, as interpolated by the route file around the user id. -/
def sq : String := "\x27"

/-- Text emitted by the projects `syncFilter` for a session user id. -/
def projectsSyncFilter (uid : String) : String :=
  "owner_id = " ++ sq ++ uid ++ sq ++ " OR " ++ sq ++ uid ++ sq ++
    " = ANY(shared_user_ids)"

/-- Text emitted by the folders `syncFilter` (constant; the route comments say
subqueries are unsupported, so all folders are synced). -/
def foldersSyncFilter (_uid : String) : String := "true"

/-- Text emitted by the files `syncFilter` (constant, as for folders). -/
def filesSyncFilter (_uid : String) : String := "true"

/-- Text emitted by the todos `syncFilter` for a session user id. -/
def todosSyncFilter (uid : String) : String :=
  sq ++ uid ++ sq ++ " = ANY(user_ids)"

/-- Evaluation of the projects sync filter text against a project row:
`owner_id = uid OR uid = ANY(shared_user_ids)`. -/
def evalProjectsSyncFilter (uid : String) (p : Project) : Bool :=
  p.owner_id = uid || p.shared_user_ids.contains uid

/-- Evaluation of the folders sync filter text `true` against a folder row. -/
def evalFoldersSyncFilter (_uid : String) (_f : Folder) : Bool := true

/-- Evaluation of the files sync filter text `true` against a file row. -/
def evalFilesSyncFilter (_uid : String) (_g : FileRow) : Bool := true

/-- Evaluation of the todos sync filter text against a todo row:
`uid = ANY(user_ids)`. -/
def evalTodosSyncFilter (uid : String) (t : Todo) : Bool :=
  t.user_ids.contains uid

/-! ## Access predicates (route file, `access` of each entity)

The update and delete predicates of the route file return filter fragments
that storage evaluates against the existing row: `eq(col, uid)` for projects
and todos, and the parameter-bound subquery
`project_id IN (SELECT id FROM projects WHERE owner_id = uid OR
uid = ANY(shared_user_ids))` for folders and files.  We embed their
evaluation against a row (and, for the subquery, the projects table). -/

/-- Ids of the projects the subquery of the folders/files access fragments
selects: owned by the user or sharing with the user. -/
def accessibleProjectIds (uid : String) (projects : List Project) : List Nat :=
  (projects.filter fun p => p.owner_id = uid || p.shared_user_ids.contains uid).map
    fun p => p.id

/-- Evaluation of the projects update/delete access fragment
`eq(projectsTable.owner_id, session.user.id)`. -/
def evalProjectsUpdateAccess (uid : String) (p : Project) : Bool :=
  p.owner_id = uid

/-- Evaluation of the todos update/delete access fragment
`eq(todosTable.user_id, session.user.id)`. -/
def evalTodosUpdateAccess (uid : String) (t : Todo) : Bool :=
  t.user_id = uid

/-- Evaluation of the folders update access fragment (the parameter-bound
`project_id IN (...)` subquery) against a folder row and the projects table. -/
def evalFoldersUpdateAccess (uid : String) (projects : List Project)
    (f : Folder) : Bool :=
  (accessibleProjectIds uid projects).contains f.project_id

/-- Evaluation of the folders delete access fragment (same subquery text as
for update in the route file). -/
def evalFoldersDeleteAccess (uid : String) (projects : List Project)
    (f : Folder) : Bool :=
  (accessibleProjectIds uid projects).contains f.project_id

/-- Evaluation of the files update access fragment against a file row and the
projects table. -/
def evalFilesUpdateAccess (uid : String) (projects : List Project)
    (g : FileRow) : Bool :=
  (accessibleProjectIds uid projects).contains g.project_id

/-- Evaluation of the files delete access fragment (same subquery as for
update). -/
def evalFilesDeleteAccess (uid : String) (projects : List Project)
    (g : FileRow) : Bool :=
  (accessibleProjectIds uid projects).contains g.project_id

/-! ## Base64 codec (the `btoa` / `atob` runtime builtins)

`serializeBytea` in `src/lib/collections.ts` calls
`btoa(String.fromCharCode(...data))` and `deserializeBytea` calls `atob`; the
files route access handlers also call `atob` on base64 payload strings.  The
builtins are embedded as an executable codec over byte lists: `btoaChunks`
emits four alphabet characters per three input bytes with `=` padding, and
`atobChunks` inverts it, failing (as `atob` throws) on characters outside the
alphabet or a malformed length. -/

/-- The 64-character base64 alphabet. -/
def base64Alphabet : List Char :=
  "ABCDEFGHIJKLMNOPQRSTUVWXYZabcdefghijklmnopqrstuvwxyz0123456789+/".toList

/-- Character for a 6-bit group. -/
def encodeChar (n : Nat) : Char := base64Alphabet.getD n (Char.ofNat 65)

/-- Inverse of `encodeChar`; fails on characters outside the alphabet. -/
def decodeChar (c : Char) : Option Nat :=
  if c ∈ base64Alphabet then some (base64Alphabet.indexOf c) else none

/-- The base64 padding character. -/
def pad64 : Char := Char.ofNat 61

/-- Body of `btoa` on a byte list: three bytes become four alphabet
characters; a final one- or two-byte chunk is padded with `=`. -/
def btoaChunks : List Nat → List Char
  | [] => []
  | [b1] =>
      [encodeChar (b1 / 4), encodeChar (b1 % 4 * 16), pad64, pad64]
  | [b1, b2] =>
      [encodeChar (b1 / 4), encodeChar (b1 % 4 * 16 + b2 / 16),
        encodeChar (b2 % 16 * 4), pad64]
  | b1 :: b2 :: b3 :: rest =>
      encodeChar (b1 / 4) :: encodeChar (b1 % 4 * 16 + b2 / 16) ::
        encodeChar (b2 % 16 * 4 + b3 / 64) :: encodeChar (b3 % 64) ::
        btoaChunks rest

/-- Body of `atob` on a character list: four characters become three bytes;
a trailing group may carry one or two `=` padding characters.  `none` stands
for the `InvalidCharacterError` that `atob` throws. -/
def atobChunks : List Char → Option (List Nat)
  | [] => some []
  | c1 :: c2 :: c3 :: c4 :: rest =>
      match decodeChar c1, decodeChar c2 with
      | some g1, some g2 =>
          if c3 = pad64 ∧ c4 = pad64 ∧ rest = [] then
            some [g1 * 4 + g2 / 16]
          else if c4 = pad64 ∧ rest = [] then
            match decodeChar c3 with
            | some g3 => some [g1 * 4 + g2 / 16, g2 % 16 * 16 + g3 / 4]
            | none => none
          else
            match decodeChar c3, decodeChar c4, atobChunks rest with
            | some g3, some g4, some bs =>
                some ((g1 * 4 + g2 / 16) :: (g2 % 16 * 16 + g3 / 4) ::
                  (g3 % 4 * 64 + g4) :: bs)
            | _, _, _ => none
      | _, _ => none
  | _ => none

theorem decodeChar_encodeChar : ∀ x : Nat, x < 64 →
    decodeChar (encodeChar x) = some x := by decide

theorem encodeChar_ne_pad64 : ∀ x : Nat, x < 64 → encodeChar x ≠ pad64 := by
  decide

/-- Round trip of the codec on bytes (every `Uint8Array` entry is below 256). -/
theorem atobChunks_btoaChunks : ∀ l : List Nat, (∀ b ∈ l, b < 256) →
    atobChunks (btoaChunks l) = some l
  | [], _ => rfl
  | [b1], h => by
      have hb1 : b1 < 256 := h b1 (by simp)
      have e1 := decodeChar_encodeChar (b1 / 4) (by omega)
      have e2 := decodeChar_encodeChar (b1 % 4 * 16) (by omega)
      simp [btoaChunks, atobChunks, e1, e2]
      omega
  | [b1, b2], h => by
      have hb1 : b1 < 256 := h b1 (by simp)
      have hb2 : b2 < 256 := h b2 (by simp)
      have e1 := decodeChar_encodeChar (b1 / 4) (by omega)
      have e2 := decodeChar_encodeChar (b1 % 4 * 16 + b2 / 16) (by omega)
      have e3 := decodeChar_encodeChar (b2 % 16 * 4) (by omega)
      have n3 := encodeChar_ne_pad64 (b2 % 16 * 4) (by omega)
      simp [btoaChunks, atobChunks, e1, e2, e3, n3]
      omega
  | [b1, b2, b3], h => by
      have hb1 : b1 < 256 := h b1 (by simp)
      have hb2 : b2 < 256 := h b2 (by simp)
      have hb3 : b3 < 256 := h b3 (by simp)
      have e1 := decodeChar_encodeChar (b1 / 4) (by omega)
      have e2 := decodeChar_encodeChar (b1 % 4 * 16 + b2 / 16) (by omega)
      have e3 := decodeChar_encodeChar (b2 % 16 * 4 + b3 / 64) (by omega)
      have e4 := decodeChar_encodeChar (b3 % 64) (by omega)
      have n3 := encodeChar_ne_pad64 (b2 % 16 * 4 + b3 / 64) (by omega)
      have n4 := encodeChar_ne_pad64 (b3 % 64) (by omega)
      simp [btoaChunks, atobChunks, e1, e2, e3, e4, n3, n4]
      omega
  | b1 :: b2 :: b3 :: r :: rs, h => by
      have hb1 : b1 < 256 := h b1 (by simp)
      have hb2 : b2 < 256 := h b2 (by simp)
      have hb3 : b3 < 256 := h b3 (by simp)
      have e1 := decodeChar_encodeChar (b1 / 4) (by omega)
      have e2 := decodeChar_encodeChar (b1 % 4 * 16 + b2 / 16) (by omega)
      have e3 := decodeChar_encodeChar (b2 % 16 * 4 + b3 / 64) (by omega)
      have e4 := decodeChar_encodeChar (b3 % 64) (by omega)
      have n3 := encodeChar_ne_pad64 (b2 % 16 * 4 + b3 / 64) (by omega)
      have n4 := encodeChar_ne_pad64 (b3 % 64) (by omega)
      have ih := atobChunks_btoaChunks (r :: rs)
        (fun b hb => h b (by simp only [List.mem_cons] at hb ⊢; tauto))
      simp [btoaChunks, atobChunks, e1, e2, e3, e4, n3, n4, ih]
      omega

/-! ## Bytea transport helpers (`src/lib/collections.ts`)

`serializeBytea` returns null when `!data` holds; a `Uint8Array` is always
truthy in JavaScript, so only null maps to null.  `deserializeBytea` also
returns null when `!data` holds, and a string is falsy exactly when it is
empty — so both null and the empty string map to null.  A strict embedding
keeps that asymmetry. -/

/-- Client-side `serializeBytea`: null passes through, bytes are base64
encoded for JSON transport. -/
def serializeBytea : Option (List Nat) → Option (List Char)
  | none => none
  | some d => some (btoaChunks d)

/-- Client-side `deserializeBytea`: null and the empty string (both falsy)
map to null; otherwise `atob` decodes, throwing (`Except.error`) on invalid
base64. -/
def deserializeBytea : Option (List Char) → Except String (Option (List Nat))
  | none => .ok none
  | some s =>
      if s = [] then .ok none
      else
        match atobChunks s with
        | some bs => .ok (some bs)
        | none => .error "InvalidCharacterError"

theorem btoaChunks_ne_nil : ∀ (b : Nat) (l : List Nat),
    btoaChunks (b :: l) ≠ []
  | b, [] => by simp [btoaChunks]
  | b, [b2] => by simp [btoaChunks]
  | b, b2 :: b3 :: rest => by simp [btoaChunks]

/-! ## Update payloads and update access functions (route file)

The update schemas of `src/db/schema.ts` make every column optional; a field
that is absent from the payload is `none`.  The files update payload may hold
its `loro_snapshot` either as the base64 string arriving over JSON transport
or as an already-decoded byte array, mirroring the
`typeof data.loro_snapshot === "string"` test in the route file. -/

/-- Wire form of the `loro_snapshot` field in a files payload. -/
inductive ByteaWire where
  | str : List Char → ByteaWire
  | bytes : List Nat → ByteaWire
deriving DecidableEq

/-- Payload accepted by `updateProjectSchema` (all columns optional). -/
structure ProjectUpdatePayload where
  name : Option String := none
  description : Option (Option String) := none
  shared_user_ids : Option (List String) := none
deriving DecidableEq

/-- Payload accepted by `updateTodoSchema` (all columns optional). -/
structure TodoUpdatePayload where
  text : Option String := none
  completed : Option Bool := none
deriving DecidableEq

/-- Payload accepted by `updateFolderSchema` (all columns optional). -/
structure FolderUpdatePayload where
  project_id : Option Nat := none
  parent_folder_id : Option (Option Nat) := none
  name : Option String := none
deriving DecidableEq

/-- Payload accepted by `updateFileSchema` (all columns optional). -/
structure FileUpdatePayload where
  project_id : Option Nat := none
  folder_id : Option (Option Nat) := none
  name : Option String := none
  loro_snapshot : Option ByteaWire := none
deriving DecidableEq

/-- Structured result of an update/delete access predicate from the route
file: each constructor is one parameter-bound fragment the code returns. -/
inductive UpdateFilter where
  | projectsOwnerEq : String → UpdateFilter
  | todosUserEq : String → UpdateFilter
  | projectMember : String → UpdateFilter
deriving DecidableEq

/-- Projects `access.update`: ignores the id and the payload, returning
`eq(projectsTable.owner_id, session.user.id)`. -/
def projectsUpdateAccess (uid : String) (_id : Nat)
    (data : ProjectUpdatePayload) :
    Except String (ProjectUpdatePayload × UpdateFilter) :=
  .ok (data, .projectsOwnerEq uid)

/-- Todos `access.update`: ignores the id and the payload, returning
`eq(todosTable.user_id, session.user.id)`. -/
def todosUpdateAccess (uid : String) (_id : Nat) (data : TodoUpdatePayload) :
    Except String (TodoUpdatePayload × UpdateFilter) :=
  .ok (data, .todosUserEq uid)

/-- Folders `access.update`: ignores the id and the payload, returning the
parameter-bound `project_id IN (...)` fragment. -/
def foldersUpdateAccess (uid : String) (_id : Nat)
    (data : FolderUpdatePayload) :
    Except String (FolderUpdatePayload × UpdateFilter) :=
  .ok (data, .projectMember uid)

/-- Files `access.update`: when the snapshot is a truthy (hence nonempty)
string, `atob` decodes it into bytes in place, throwing on invalid base64;
then the same parameter-bound `project_id IN (...)` fragment is returned. -/
def filesUpdateAccess (uid : String) (_id : Nat) (data : FileUpdatePayload) :
    Except String (FileUpdatePayload × UpdateFilter) :=
  match data.loro_snapshot with
  | some (.str s) =>
      if s = [] then .ok (data, .projectMember uid)
      else
        match atobChunks s with
        | some bs =>
            .ok ({ data with loro_snapshot := some (.bytes bs) },
              .projectMember uid)
        | none => .error "Invalid base64 data for loro_snapshot"
  | _ => .ok (data, .projectMember uid)

/-! ## Create payloads and create access functions (route file) -/

/-- Payload accepted by `createProjectSchema` (insert columns minus
`created_at`; `id` is database-generated and `description` nullable). -/
structure ProjectCreatePayload where
  name : String
  description : Option String
  shared_user_ids : List String
  owner_id : String
deriving DecidableEq

/-- Payload accepted by `createFolderSchema` (insert columns minus the
timestamps). -/
structure FolderCreatePayload where
  project_id : Nat
  parent_folder_id : Option Nat
  name : String
deriving DecidableEq

/-- Projects `access.create`: allow exactly when the payload owner is the
session user, otherwise throw. -/
def projectsCreateAccess (uid : String) (data : ProjectCreatePayload) :
    Except String Bool :=
  if data.owner_id = uid then .ok true
  else .error "You can only create projects you own"

/-- Folders `access.create`: unconditionally true. -/
def foldersCreateAccess (_uid : String) (_data : FolderCreatePayload) :
    Except String Bool :=
  .ok true

/-- Users `access.create`: unconditionally throws. -/
def usersCreateAccess : Except String Bool :=
  .error "Can\x27t create new users through REST API"

/-- Users `access.update`: unconditionally throws. -/
def usersUpdateAccess : Except String Bool :=
  .error "Can\x27t edit users through REST API"

/-- Users `access.delete`: unconditionally throws. -/
def usersDeleteAccess : Except String Bool :=
  .error "Can\x27t delete users through REST API"

/-! ## Unique indexes (`src/db/schema.ts`)

`folders_project_parent_name_unique` is on `(project_id, parent_folder_id,
name)` and `files_folder_name_unique` on `(folder_id, name)`.  A Postgres
unique index only rejects two rows whose indexed values are all non-null and
equal: two nulls never conflict. -/

/-- Two folder rows collide on `folders_project_parent_name_unique`. -/
def folderConflict (a b : Folder) : Bool :=
  a.project_id = b.project_id && a.name = b.name &&
    match a.parent_folder_id, b.parent_folder_id with
    | some x, some y => x = y
    | _, _ => false

/-- Two file rows collide on `files_folder_name_unique`. -/
def fileConflict (a b : FileRow) : Bool :=
  a.name = b.name &&
    match a.folder_id, b.folder_id with
    | some x, some y => x = y
    | _, _ => false

/-- A folder table state the unique index admits: no two rows collide. -/
def foldersIndexAdmits : List Folder → Bool
  | [] => true
  | f :: rest => rest.all (fun g => !(folderConflict f g)) && foldersIndexAdmits rest

/-- A file table state the unique index admits: no two rows collide. -/
def filesIndexAdmits : List FileRow → Bool
  | [] => true
  | g :: rest => rest.all (fun x => !(fileConflict g x)) && filesIndexAdmits rest

/-! ## Folder tree: parent chain and cycles -/

/-- Parent id of a folder in a table state, null when the folder is a root
or absent. -/
def parentOf (folders : List Folder) (id : Nat) : Option Nat :=
  match folders.find? (fun f => f.id = id) with
  | some f => f.parent_folder_id
  | none => none

/-- Chain of ancestors of a node, followed with fuel. -/
def ancestorChain (folders : List Folder) : Nat → Nat → List Nat
  | 0, _ => []
  | fuel + 1, id =>
      match parentOf folders id with
      | some p => p :: ancestorChain folders fuel p
      | none => []

/-- The parent relation is acyclic: no folder occurs among its own
ancestors (fuel `folders.length` covers every simple chain). -/
def folderCycleFree (folders : List Folder) : Bool :=
  folders.all fun f =>
    !((ancestorChain folders folders.length f.id).contains f.id)

/-! ## Server state and endpoint pipelines

`createCRUDRoutes` itself is not among the given sources (the route file only
calls it), so the generic create/update pipelines below are modelled from the
specification — §4.2: create validates the payload, evaluates the create
predicate, fails on denial, otherwise writes and returns the new key and a
transaction id; update loads the current row (NotFound if absent), evaluates
the update predicate against the existing row, and performs a partial write
of only the supplied fields.  The storage engine enforces the unique indexes
of the schema inside the same atomic step. -/

/-- Server-side table state plus the id and transaction-id counters. -/
structure ServerState where
  projects : List Project
  folders : List Folder
  nextId : Nat
  nextTxid : Nat
deriving DecidableEq

/-- Modelled from the spec: the `createCRUDRoutes` create pipeline for the
projects entity, instantiated with `projectsCreateAccess` from the route file.
A denial by the predicate is the AccessDenied failure; otherwise the row is
written and the new key and a transaction id are returned. -/
def projectsCreate (uid : String) (data : ProjectCreatePayload)
    (st : ServerState) : Except String (ServerState × Nat × Nat) :=
  match projectsCreateAccess uid data with
  | .error e => .error e
  | .ok _ =>
      let row : Project :=
        { id := st.nextId, name := data.name, description := data.description,
          shared_user_ids := data.shared_user_ids, created_at := 0,
          owner_id := data.owner_id }
      let st2 := { st with projects := st.projects ++ [row],
                           nextId := st.nextId + 1,
                           nextTxid := st.nextTxid + 1 }
      .ok (st2, st.nextId, st.nextTxid)

/-- Partial write of a folder update payload onto an existing row: only the
supplied fields change. -/
def applyFolderUpdate (f : Folder) (d : FolderUpdatePayload) : Folder :=
  { f with
    project_id := d.project_id.getD f.project_id,
    parent_folder_id := d.parent_folder_id.getD f.parent_folder_id,
    name := d.name.getD f.name }

/-- Modelled from the spec: the `createCRUDRoutes` update pipeline for the
folders entity, instantiated with the folders update access fragment from the
route file and the unique index of the schema.  No other invariant is checked
before the write is accepted. -/
def foldersUpdate (uid : String) (id : Nat) (d : FolderUpdatePayload)
    (st : ServerState) : Except String (ServerState × Nat) :=
  match st.folders.find? (fun f => f.id = id) with
  | none => .error "NotFound"
  | some row =>
      if evalFoldersUpdateAccess uid st.projects row then
        let nr := applyFolderUpdate row d
        if (st.folders.filter (fun f => f.id ≠ id)).any
            (fun f => folderConflict f nr) then
          .error "ConflictError"
        else
          let st2 :=
            { st with
              folders := st.folders.map (fun f => if f.id = id then nr else f),
              nextTxid := st.nextTxid + 1 }
          .ok (st2, st.nextTxid)
      else .error "AccessDenied"

/-- A user row of the auth schema, reduced to its opaque id. -/
structure UserRow where
  id : String
deriving DecidableEq

/-- Modelled from the spec: the create pipeline for the users entity with
`usersCreateAccess`; the predicate throws, so the pipeline can never reach
the write. -/
def usersCreate (_uid : String) (row : UserRow) (st : List UserRow) :
    Except String (List UserRow × Nat) :=
  match usersCreateAccess with
  | .error e => .error e
  | .ok _ => .ok (st ++ [row], 0)

/-- Modelled from the spec: the update pipeline for the users entity with
`usersUpdateAccess`. -/
def usersUpdate (_uid : String) (id : String) (row : UserRow)
    (st : List UserRow) : Except String (List UserRow × Nat) :=
  match usersUpdateAccess with
  | .error e => .error e
  | .ok _ => .ok (st.map (fun u => if u.id = id then row else u), 0)

/-- Modelled from the spec: the delete pipeline for the users entity with
`usersDeleteAccess`. -/
def usersDelete (_uid : String) (id : String) (st : List UserRow) :
    Except String (List UserRow × Nat) :=
  match usersDeleteAccess with
  | .error e => .error e
  | .ok _ => .ok (st.filter (fun u => u.id ≠ id), 0)

/-- Modelled from the spec: a partial write over a generic field map — every
field named in the payload is overwritten, every other field kept. -/
def applyPartialWrite {α : Type} (row : List (String × α))
    (payload : List (String × α)) : List (String × α) :=
  row.map fun kv =>
    match payload.lookup kv.1 with
    | some v => (kv.1, v)
    | none => kv

/-! ## Client mutation handlers (`src/lib/collections.ts`)

Each of the twelve `onInsert` / `onUpdate` / `onDelete` handlers of the
project, todo, folder and file collections posts a request and then runs the
same branch: when `result.ok` holds it returns `{ txid: data.txid }`, and
otherwise it throws an `Error` carrying the JSON error body of the response.
The response is embedded with its `ok` flag, the transaction id of a
successful body and the serialized error body of a failed one. -/

/-- Server response as the handlers see it. -/
structure ServerResponse where
  ok : Bool
  txid : Nat
  errorBody : String
deriving DecidableEq

/-- One of the twelve collection mutation handlers. -/
inductive HandlerId where
  | projectsInsert | projectsUpdate | projectsDelete
  | todosInsert | todosUpdate | todosDelete
  | foldersInsert | foldersUpdate | foldersDelete
  | filesInsert | filesUpdate | filesDelete
deriving DecidableEq

/-- Result branch of a collection mutation handler, one case per handler;
every case transcribes the `if (result.ok) ... else throw` tail of the
corresponding function in `src/lib/collections.ts`. -/
def runHandler : HandlerId → ServerResponse → Except String Nat
  | .projectsInsert, r => if r.ok then .ok r.txid else .error r.errorBody
  | .projectsUpdate, r => if r.ok then .ok r.txid else .error r.errorBody
  | .projectsDelete, r => if r.ok then .ok r.txid else .error r.errorBody
  | .todosInsert, r => if r.ok then .ok r.txid else .error r.errorBody
  | .todosUpdate, r => if r.ok then .ok r.txid else .error r.errorBody
  | .todosDelete, r => if r.ok then .ok r.txid else .error r.errorBody
  | .foldersInsert, r => if r.ok then .ok r.txid else .error r.errorBody
  | .foldersUpdate, r => if r.ok then .ok r.txid else .error r.errorBody
  | .foldersDelete, r => if r.ok then .ok r.txid else .error r.errorBody
  | .filesInsert, r => if r.ok then .ok r.txid else .error r.errorBody
  | .filesUpdate, r => if r.ok then .ok r.txid else .error r.errorBody
  | .filesDelete, r => if r.ok then .ok r.txid else .error r.errorBody

/-! ## Optimistic collection store

The store itself lives in the TanStack DB dependency, outside the given
sources; the definitions below are modelled from the specification: §3 gives
the pending-mutation lifecycle, §4.4 the optimistic overlay (for update,
merge onto the last known value; for delete, tombstone; for insert,
materialize) and step 4 the rollback — a server failure before a transaction
id rolls the optimistic overlay back immediately. -/

/-- Kind of a pending mutation. -/
inductive MutKind where
  | ins | upd | del
deriving DecidableEq

/-- Modelled from the spec: a Pending Mutation of the Collection Store —
kind, entity key, and the optimistic value (none for a delete tombstone). -/
structure PendingMutation (α : Type) where
  kind : MutKind
  key : Nat
  value : Option α
deriving DecidableEq

/-- Modelled from the spec: Collection State — last confirmed values by key
plus the ordered pending list. -/
structure CollectionState (α : Type) where
  base : List (Nat × α)
  pending : List (PendingMutation α)
deriving DecidableEq

/-- Confirmed value for a key. -/
def lookupBase {α : Type} (base : List (Nat × α)) (k : Nat) : Option α :=
  (base.find? (fun kv => kv.1 = k)).map (fun kv => kv.2)

/-- Overlay of one pending mutation on a key-to-value view. -/
def overlayMut {α : Type} (m : PendingMutation α) (view : Nat → Option α) :
    Nat → Option α :=
  fun k =>
    if k = m.key then
      match m.kind with
      | .del => none
      | _ => m.value
    else view k

/-- Externally observable key-to-value mapping of the store: confirmed state
with the pending overlays layered on top in submission order (§3). -/
def readView {α : Type} (s : CollectionState α) : Nat → Option α :=
  s.pending.foldl (fun view m => overlayMut m view) (lookupBase s.base)

/-- Modelled from the spec: applying a local mutation optimistically appends
it to the pending overlay. -/
def applyOptimistic {α : Type} (s : CollectionState α)
    (m : PendingMutation α) : CollectionState α :=
  { s with pending := s.pending ++ [m] }

/-- Modelled from the spec: when the server call fails before a transaction
id is issued, the just-applied optimistic overlay is rolled back. -/
def rollbackFailed {α : Type} (s : CollectionState α) : CollectionState α :=
  { s with pending := s.pending.dropLast }

/-- Modelled from the spec: the Mutation Dispatcher applies the mutation
optimistically, submits it, and feeds the handler result back — keeping the
overlay and the transaction id on success, rolling back on failure. -/
def dispatchMutation {α : Type} (h : HandlerId) (s : CollectionState α)
    (m : PendingMutation α) (r : ServerResponse) :
    CollectionState α × Except String Nat :=
  let s1 := applyOptimistic s m
  match runHandler h r with
  | .ok t => (s1, .ok t)
  | .error e => (rollbackFailed s1, .error e)

/-! ## Claim theorems -/

/-- C1, counterexample: the claimed equivalence between the sync filter and
the update/delete access predicate fails — the folder below is delivered by
the folders sync filter for user u1 (the filter text is the constant `true`)
although the update/delete access predicate denies it, its only project being
owned by u2 and shared with nobody. -/
theorem c1_sync_access_counterexample :
    evalFoldersSyncFilter "u1"
        { id := 1, project_id := 1, parent_folder_id := none, name := "docs",
          created_at := 0, updated_at := 0 } = true ∧
      evalFoldersUpdateAccess "u1"
        [{ id := 1, name := "P", description := none, shared_user_ids := [],
           created_at := 0, owner_id := "u2" }]
        { id := 1, project_id := 1, parent_folder_id := none, name := "docs",
          created_at := 0, updated_at := 0 } = false := by
  decide

/-- C1, amended: for the folders and files entities the sync filter delivers
every row, so delivery is implied by — but not equivalent to — the
update/delete access predicate: the update and delete fragments agree with
each other, and any row whose project they admit is delivered, while rows
they deny are delivered too. -/
theorem c1_access_implies_sync :
    (∀ (uid : String) (f : Folder), evalFoldersSyncFilter uid f = true) ∧
    (∀ (uid : String) (g : FileRow), evalFilesSyncFilter uid g = true) ∧
    (∀ (uid : String) (ps : List Project) (f : Folder),
      evalFoldersUpdateAccess uid ps f = evalFoldersDeleteAccess uid ps f) ∧
    (∀ (uid : String) (ps : List Project) (g : FileRow),
      evalFilesUpdateAccess uid ps g = evalFilesDeleteAccess uid ps g) ∧
    (∀ (uid : String) (ps : List Project) (f : Folder),
      evalFoldersUpdateAccess uid ps f = true →
        evalFoldersSyncFilter uid f = true) ∧
    (∀ (uid : String) (ps : List Project) (g : FileRow),
      evalFilesUpdateAccess uid ps g = true →
        evalFilesSyncFilter uid g = true) :=
  ⟨fun _ _ => rfl, fun _ _ => rfl, fun _ _ _ => rfl, fun _ _ _ => rfl,
    fun _ _ _ _ => rfl, fun _ _ _ _ => rfl⟩

/-- C1, witness: a folder whose project user u1 owns is admitted by the
update access predicate and delivered by the sync filter. -/
theorem c1_access_implies_sync_witness :
    evalFoldersUpdateAccess "u1"
        [{ id := 1, name := "P", description := none, shared_user_ids := [],
           created_at := 0, owner_id := "u1" }]
        { id := 1, project_id := 1, parent_folder_id := none, name := "docs",
          created_at := 0, updated_at := 0 } = true ∧
      evalFoldersSyncFilter "u1"
        { id := 1, project_id := 1, parent_folder_id := none, name := "docs",
          created_at := 0, updated_at := 0 } = true :=
  ⟨by decide, c1_access_implies_sync.2.2.2.2.1 "u1"
    [{ id := 1, name := "P", description := none, shared_user_ids := [],
       created_at := 0, owner_id := "u1" }]
    { id := 1, project_id := 1, parent_folder_id := none, name := "docs",
      created_at := 0, updated_at := 0 } (by decide)⟩

/-- Project 1, owned by user u1 and shared with nobody. -/
def projectOneOwnedByU1 : Project :=
  { id := 1, name := "P", description := none, shared_user_ids := [],
    created_at := 0, owner_id := "u1" }

/-- Folder 1, a root folder of project 1 named docs. -/
def folderDocs : Folder :=
  { id := 1, project_id := 1, parent_folder_id := none, name := "docs",
    created_at := 0, updated_at := 0 }

/-- Folder 2, a child of folder 1 named notes. -/
def folderNotes : Folder :=
  { id := 2, project_id := 1, parent_folder_id := some 1, name := "notes",
    created_at := 0, updated_at := 0 }

/-- Folder 1 after its parent has been set to its own child, folder 2. -/
def folderDocsReparented : Folder :=
  { folderDocs with parent_folder_id := some 2 }

/-- Server state before the cycle-creating update. -/
def cycleStateBefore : ServerState :=
  { projects := [projectOneOwnedByU1], folders := [folderDocs, folderNotes],
    nextId := 3, nextTxid := 7 }

/-- Server state the update pipeline produces: folder 1 now points at its
own child. -/
def cycleStateAfter : ServerState :=
  { projects := [projectOneOwnedByU1],
    folders := [folderDocsReparented, folderNotes],
    nextId := 3, nextTxid := 8 }

/-- C2: against the embedded update pipeline — the access fragment from the
route file plus the unique index, the only checks guarding a folder update —
user u1, owner of project 1, sets the parent of folder 1 to folder 2, which
is a child of folder 1.  The update is accepted (no ConflictError) and the
resulting parent relation is cyclic, contradicting the claim and the cycle
prevention promised by the repository plan. -/
theorem c2_cycle_update_accepted :
    foldersUpdate "u1" 1 { parent_folder_id := some (some 2) }
        cycleStateBefore = .ok (cycleStateAfter, 7) ∧
      folderCycleFree cycleStateAfter.folders = false :=
  ⟨rfl, by decide⟩

/-- First of two admitted root folders sharing a project and a name. -/
def rootDocsOne : Folder :=
  { id := 1, project_id := 1, parent_folder_id := none, name := "docs",
    created_at := 0, updated_at := 0 }

/-- Second of two admitted root folders sharing a project and a name. -/
def rootDocsTwo : Folder :=
  { id := 2, project_id := 1, parent_folder_id := none, name := "docs",
    created_at := 0, updated_at := 0 }

/-- C3, counterexample: the unique index
`folders_project_parent_name_unique` admits two distinct root folders that
agree on container id, parent id (both null) and name, because a Postgres
unique index never equates two nulls. -/
theorem c3_null_parent_counterexample :
    foldersIndexAdmits [rootDocsOne, rootDocsTwo] = true ∧
      rootDocsOne.id ≠ rootDocsTwo.id ∧
      rootDocsOne.project_id = rootDocsTwo.project_id ∧
      rootDocsOne.parent_folder_id = rootDocsTwo.parent_folder_id ∧
      rootDocsOne.name = rootDocsTwo.name := by
  decide

/-- C3, amended: name uniqueness holds exactly on the scope the indexes
enforce with non-null parents — among admitted folder rows no two with the
same project and the same non-null parent share a name, and among admitted
file rows no two with the same non-null folder share a name (the files scope
does not include the project id); rows with a null parent or folder are
exempt. -/
theorem c3_nonnull_unique :
    (∀ fs : List Folder, foldersIndexAdmits fs = true →
      fs.Pairwise fun a b => a.project_id = b.project_id →
        ∀ v, a.parent_folder_id = some v → b.parent_folder_id = some v →
          a.name ≠ b.name) ∧
    (∀ gs : List FileRow, filesIndexAdmits gs = true →
      gs.Pairwise fun a b =>
        ∀ v, a.folder_id = some v → b.folder_id = some v →
          a.name ≠ b.name) := by
  constructor
  · intro fs h
    induction fs with
    | nil => simp
    | cons a rest ih =>
        simp only [foldersIndexAdmits, Bool.and_eq_true, List.all_eq_true] at h
        refine List.Pairwise.cons ?_ (ih h.2)
        intro b hb hproj v hav hbv hname
        have hc := h.1 b hb
        simp [folderConflict, hproj, hname, hav, hbv] at hc
  · intro gs h
    induction gs with
    | nil => simp
    | cons a rest ih =>
        simp only [filesIndexAdmits, Bool.and_eq_true, List.all_eq_true] at h
        refine List.Pairwise.cons ?_ (ih h.2)
        intro b hb v hav hbv hname
        have hc := h.1 b hb
        simp [fileConflict, hname, hav, hbv] at hc

/-- C3, witness: two admitted folders under the same non-null parent carry
distinct names, as the amended claim requires. -/
theorem c3_nonnull_unique_witness :
    foldersIndexAdmits
        [{ id := 1, project_id := 1, parent_folder_id := some 5, name := "a",
           created_at := 0, updated_at := 0 },
         { id := 2, project_id := 1, parent_folder_id := some 5, name := "b",
           created_at := 0, updated_at := 0 }] = true ∧
      List.Pairwise
        (fun a b : Folder => a.project_id = b.project_id →
          ∀ v, a.parent_folder_id = some v → b.parent_folder_id = some v →
            a.name ≠ b.name)
        [{ id := 1, project_id := 1, parent_folder_id := some 5, name := "a",
           created_at := 0, updated_at := 0 },
         { id := 2, project_id := 1, parent_folder_id := some 5, name := "b",
           created_at := 0, updated_at := 0 }] :=
  ⟨by decide, c3_nonnull_unique.1
    [{ id := 1, project_id := 1, parent_folder_id := some 5, name := "a",
       created_at := 0, updated_at := 0 },
     { id := 2, project_id := 1, parent_folder_id := some 5, name := "b",
       created_at := 0, updated_at := 0 }] (by decide)⟩

/-- C4: for the projects entity, the create predicate from the route file
allows exactly when the payload owner is the session user; the create
pipeline fails with the access denial exactly when the owner differs, and
otherwise writes the row and returns the new key plus a transaction id. -/
theorem c4_projects_create_owner_gate (uid : String)
    (d : ProjectCreatePayload) (st : ServerState) :
    ((projectsCreateAccess uid d = .ok true) ↔ d.owner_id = uid) ∧
    (d.owner_id ≠ uid →
      projectsCreate uid d st = .error "You can only create projects you own") ∧
    (d.owner_id = uid →
      projectsCreate uid d st =
        .ok ({ st with
            projects := st.projects ++
              [{ id := st.nextId, name := d.name,
                 description := d.description,
                 shared_user_ids := d.shared_user_ids, created_at := 0,
                 owner_id := d.owner_id }],
            nextId := st.nextId + 1, nextTxid := st.nextTxid + 1 },
          st.nextId, st.nextTxid)) := by
  by_cases h : d.owner_id = uid <;>
    simp [projectsCreate, projectsCreateAccess, h]

/-- Payload for the Default project, owned by user u1. -/
def defaultProjectPayload : ProjectCreatePayload :=
  { name := "Default", description := some "Default project",
    shared_user_ids := [], owner_id := "u1" }

/-- Empty server state with counters at 4 and 9. -/
def emptyStateFourNine : ServerState :=
  { projects := [], folders := [], nextId := 4, nextTxid := 9 }

/-- The Default project row as written with key 4. -/
def defaultProjectRow : Project :=
  { id := 4, name := "Default", description := some "Default project",
    shared_user_ids := [], created_at := 0, owner_id := "u1" }

/-- Server state after u1 created the Default project. -/
def stateAfterDefaultCreate : ServerState :=
  { projects := [defaultProjectRow], folders := [], nextId := 5,
    nextTxid := 10 }

/-- C4, witness: a payload owned by u1, created by u1, is written with the
state's next key and transaction id. -/
theorem c4_projects_create_owner_gate_witness :
    defaultProjectPayload.owner_id = "u1" ∧
    projectsCreate "u1" defaultProjectPayload emptyStateFourNine =
      .ok (stateAfterDefaultCreate, 4, 9) :=
  ⟨rfl, (c4_projects_create_owner_gate "u1" defaultProjectPayload
    emptyStateFourNine).2.2 rfl⟩

/-- C5, counterexample: for the files entity the update access decision is
not a function of the principal and the existing row alone — with the same
principal and target row, a payload whose snapshot is an invalid base64
string makes the access function throw, while the empty payload yields the
project-membership fragment. -/
theorem c5_files_access_payload_dependent :
    filesUpdateAccess "u1" 1
        { loro_snapshot := some (.str [ '!', '!', '!', '!' ]) } =
      .error "Invalid base64 data for loro_snapshot" ∧
    filesUpdateAccess "u1" 1 {} = .ok ({}, .projectMember "u1") :=
  ⟨rfl, rfl⟩

/-- C5, amended: for the projects, todos and folders entities the update
access decision ignores the payload entirely; for files the returned filter
is always the project-membership fragment for the session user whenever the
access function does not throw, the throw depending on the payload's
snapshot; and the modelled partial write leaves every field that the payload
does not name unchanged. -/
theorem c5_update_access_payload_free :
    (∀ (uid : String) (i : Nat) (d e : ProjectUpdatePayload),
      (projectsUpdateAccess uid i d).map (fun p => p.2) =
        (projectsUpdateAccess uid i e).map (fun p => p.2)) ∧
    (∀ (uid : String) (i : Nat) (d e : TodoUpdatePayload),
      (todosUpdateAccess uid i d).map (fun p => p.2) =
        (todosUpdateAccess uid i e).map (fun p => p.2)) ∧
    (∀ (uid : String) (i : Nat) (d e : FolderUpdatePayload),
      (foldersUpdateAccess uid i d).map (fun p => p.2) =
        (foldersUpdateAccess uid i e).map (fun p => p.2)) ∧
    (∀ (uid : String) (i : Nat) (d : FileUpdatePayload)
      (out : FileUpdatePayload × UpdateFilter),
      filesUpdateAccess uid i d = .ok out → out.2 = .projectMember uid) ∧
    (∀ (α : Type) (row payload : List (String × α)) (k : String),
      payload.lookup k = none →
        (applyPartialWrite row payload).lookup k = row.lookup k) := by
  refine ⟨fun _ _ _ _ => rfl, fun _ _ _ _ => rfl, fun _ _ _ _ => rfl,
    ?_, ?_⟩
  · intro uid i d out h
    unfold filesUpdateAccess at h
    split at h
    · rename_i s
      split at h
      · exact (Except.ok.inj h) ▸ rfl
      · split at h
        · exact (Except.ok.inj h) ▸ rfl
        · exact absurd h (by simp)
    · exact (Except.ok.inj h) ▸ rfl
  · intro α row payload k hk
    induction row with
    | nil => rfl
    | cons kv rest ih =>
        by_cases hkk : k = kv.1
        · subst hkk
          simp [applyPartialWrite, hk, List.lookup]
        · cases hpc : payload.lookup kv.1 <;>
            simp [applyPartialWrite, List.lookup, hpc,
              (by simpa using hkk : ¬(k == kv.1) = true)] <;>
            simpa [applyPartialWrite] using ih

/-- C5, witness: a concrete payload-free access result for files and a
concrete untouched field under the partial write. -/
theorem c5_update_access_payload_free_witness :
    filesUpdateAccess "u1" 1 { name := some "f.txt" } =
      .ok ({ name := some "f.txt" }, .projectMember "u1") ∧
    ((({ name := some "f.txt" } : FileUpdatePayload),
        UpdateFilter.projectMember "u1").2 = .projectMember "u1") ∧
    ([("b", 9)].lookup "a" = (none : Option Nat)) ∧
    (applyPartialWrite [("a", 1), ("b", 2)] [("b", 9)]).lookup "a" =
      ([("a", 1), ("b", 2)] : List (String × Nat)).lookup "a" :=
  ⟨rfl,
    c5_update_access_payload_free.2.2.2.1 "u1" 1 { name := some "f.txt" }
      ({ name := some "f.txt" }, .projectMember "u1") rfl,
    rfl,
    c5_update_access_payload_free.2.2.2.2 Nat [("a", 1), ("b", 2)]
      [("b", 9)] "a" rfl⟩

/-- C6: every collection mutation handler settles exactly by the response
status — it returns the transaction id of the body exactly when the response
is ok, and throws the error body exactly when it is not; no failure is
swallowed. -/
theorem c6_handlers_forward_txid_or_throw (h : HandlerId)
    (r : ServerResponse) :
    (r.ok = true → runHandler h r = .ok r.txid) ∧
    (r.ok = false → runHandler h r = .error r.errorBody) ∧
    (∀ t, runHandler h r = .ok t → r.ok = true ∧ t = r.txid) ∧
    (∀ e, runHandler h r = .error e → r.ok = false ∧ e = r.errorBody) := by
  obtain ⟨ok, txid, body⟩ := r
  cases ok <;> cases h <;> simp [runHandler]

/-- C6, witness: a successful folders insert response yields its transaction
id. -/
theorem c6_handlers_forward_txid_or_throw_witness :
    ({ ok := true, txid := 5, errorBody := "" } : ServerResponse).ok = true ∧
    runHandler .foldersInsert { ok := true, txid := 5, errorBody := "" } =
      .ok 5 :=
  ⟨rfl, (c6_handlers_forward_txid_or_throw .foldersInsert
    { ok := true, txid := 5, errorBody := "" }).1 rfl⟩

/-- C7: a mutation whose server call fails before a transaction id is issued
leaves the Collection Store identical, key by key, to its state before the
mutation was applied optimistically, and the error is surfaced. -/
theorem c7_failed_mutation_rolls_back {α : Type} (h : HandlerId)
    (s : CollectionState α) (m : PendingMutation α) (r : ServerResponse)
    (hfail : r.ok = false) :
    (∀ k, readView (dispatchMutation h s m r).1 k = readView s k) ∧
    (dispatchMutation h s m r).2 = .error r.errorBody := by
  have hrun : runHandler h r = .error r.errorBody := by
    obtain ⟨ok, txid, body⟩ := r
    cases ok
    · cases h <;> simp [runHandler]
    · simp at hfail
  have hstate : (dispatchMutation h s m r).1 = s := by
    simp only [dispatchMutation, hrun]
    simp [rollbackFailed, applyOptimistic]
  exact ⟨fun k => by rw [hstate], by simp [dispatchMutation, hrun]⟩

/-- C7, witness: a failed projects insert leaves the value of key 1 exactly
as before the optimistic insert and surfaces the error body. -/
theorem c7_failed_mutation_rolls_back_witness :
    ({ ok := false, txid := 0, errorBody := "boom" } : ServerResponse).ok
        = false ∧
    readView
        (dispatchMutation .projectsInsert
          ({ base := [(1, 10)], pending := [] } : CollectionState Nat)
          { kind := .upd, key := 1, value := some 11 }
          { ok := false, txid := 0, errorBody := "boom" }).1 1 =
      readView ({ base := [(1, 10)], pending := [] } : CollectionState Nat)
        1 ∧
    (dispatchMutation .projectsInsert
        ({ base := [(1, 10)], pending := [] } : CollectionState Nat)
        { kind := .upd, key := 1, value := some 11 }
        { ok := false, txid := 0, errorBody := "boom" }).2 =
      .error "boom" :=
  ⟨rfl,
    (c7_failed_mutation_rolls_back .projectsInsert
      { base := [(1, 10)], pending := [] }
      { kind := .upd, key := 1, value := some 11 }
      { ok := false, txid := 0, errorBody := "boom" } rfl).1 1,
    (c7_failed_mutation_rolls_back .projectsInsert
      { base := [(1, 10)], pending := [] }
      { kind := .upd, key := 1, value := some 11 }
      { ok := false, txid := 0, errorBody := "boom" } rfl).2⟩

/-- C8, counterexample: the filter fragment emitted for the change-feed
subscription is not parameter-bound for the projects and todos entities —
the emitted text varies with the session user id, which is interpolated
directly into it. -/
theorem c8_interpolated_uid_counterexample :
    projectsSyncFilter "ua" ≠ projectsSyncFilter "ub" ∧
    todosSyncFilter "ua" ≠ todosSyncFilter "ub" := by
  decide

/-- C8, amended: the folders and files subscriptions emit a constant filter
text free of principal data, while the projects and todos subscriptions
splice the session user id into the emitted filter text (the id occurs
verbatim, single-quoted, inside the text). -/
theorem c8_sync_filter_interpolation :
    (∀ u v : String, foldersSyncFilter u = foldersSyncFilter v) ∧
    (∀ u v : String, filesSyncFilter u = filesSyncFilter v) ∧
    (∀ uid : String,
      uid.toList <:+: (projectsSyncFilter uid).toList) ∧
    (∀ uid : String, uid.toList <:+: (todosSyncFilter uid).toList) := by
  refine ⟨fun _ _ => rfl, fun _ _ => rfl, fun uid => ?_, fun uid => ?_⟩
  · refine ⟨("owner_id = " ++ sq).toList,
      (sq ++ " OR " ++ sq ++ uid ++ sq ++ " = ANY(shared_user_ids)").toList,
      ?_⟩
    simp [projectsSyncFilter, String.toList, String.data_append]
  · refine ⟨sq.toList, (sq ++ " = ANY(user_ids)").toList, ?_⟩
    simp [todosSyncFilter, String.toList, String.data_append]

/-- C9, counterexample: the bytea transport encoding does not round-trip on
the empty array — `btoa` of no bytes is the empty string, which
`deserializeBytea` treats as falsy and maps to null instead of back to the
empty array. -/
theorem c9_empty_bytea_counterexample :
    serializeBytea (some []) = some [] ∧
    deserializeBytea (serializeBytea (some [])) = .ok none ∧
    (Except.ok (some ([] : List Nat)) ≠
      (.ok none : Except String (Option (List Nat)))) :=
  ⟨rfl, rfl, by simp⟩

/-- C9, amended: both helpers map null to null, the empty array maps to null
instead of round-tripping, and every nonempty byte array round-trips byte
for byte through the transport encoding. -/
theorem c9_bytea_roundtrip :
    serializeBytea none = none ∧
    deserializeBytea none = .ok none ∧
    deserializeBytea (serializeBytea (some [])) = .ok none ∧
    (∀ d : List Nat, d ≠ [] → (∀ b ∈ d, b < 256) →
      deserializeBytea (serializeBytea (some d)) = .ok (some d)) := by
  refine ⟨rfl, rfl, rfl, fun d hne hb => ?_⟩
  obtain ⟨b, l, rfl⟩ : ∃ b l, d = b :: l := by
    cases d with
    | nil => exact absurd rfl hne
    | cons b l => exact ⟨b, l, rfl⟩
  simp [serializeBytea, deserializeBytea, btoaChunks_ne_nil b l,
    atobChunks_btoaChunks _ hb]

/-- C9, witness: the two-byte array 104, 105 round-trips. -/
theorem c9_bytea_roundtrip_witness :
    ([104, 105] : List Nat) ≠ [] ∧
    (∀ b ∈ ([104, 105] : List Nat), b < 256) ∧
    deserializeBytea (serializeBytea (some [104, 105])) =
      .ok (some [104, 105]) :=
  ⟨by decide, by decide,
    c9_bytea_roundtrip.2.2.2 [104, 105] (by decide) (by decide)⟩

/-- C10: the users entity is read-only through the REST API — each access
predicate unconditionally throws, so every create, update and delete on the
users resource fails with the corresponding error and never reaches a
write. -/
theorem c10_users_read_only :
    (∀ (uid : String) (row : UserRow) (st : List UserRow),
      usersCreate uid row st =
        .error "Can\x27t create new users through REST API") ∧
    (∀ (uid id : String) (row : UserRow) (st : List UserRow),
      usersUpdate uid id row st =
        .error "Can\x27t edit users through REST API") ∧
    (∀ (uid id : String) (st : List UserRow),
      usersDelete uid id st =
        .error "Can\x27t delete users through REST API") :=
  ⟨fun _ _ _ => rfl, fun _ _ _ _ => rfl, fun _ _ _ => rfl⟩

end Arbor
